import Mathlib

/-!
Verification of the BeeOS device-filesystem slice: `src/kernel/src/fs/devfs.c`
and `src/kernel/src/sys/sys_mknod.c`, shallowly embedded in Lean.

C strings are embedded as `List Char` (the terminating NUL is implicit; reading
one position past the last character yields the NUL, modelled by `List.getD`
with default `'\x00'`).  Byte buffers are `List Nat`.  The external driver and
naming layers are abstract parameters.
-/

/-! ### Device identifiers and error numbers

Modelled from the spec: the headers `dev.h`, `errno.h` and `stat.h` are not
part of the given slice.  The spec describes device identifiers as opaque
small integers tagging a device kind; the embedding fixes distinct values
(none equal to the in-band sentinel `0xFFFF` used by `name_to_dev`).
`EEXIST` and `ENODEV` take their conventional values; `S_IFDIR` is the
conventional directory file-type bit.
-/

def DEV_TTY : Nat := 0x0500

def DEV_CONSOLE : Nat := 0x0501

def DEV_CONSOLE1 : Nat := 0x0101

def DEV_CONSOLE2 : Nat := 0x0102

def DEV_CONSOLE3 : Nat := 0x0103

def DEV_CONSOLE4 : Nat := 0x0104

def DEV_INITRD : Nat := 0x0700

def DEV_ZERO : Nat := 0x0105

def DEV_NULL : Nat := 0x0106

def EEXIST : Int := 17

def ENODEV : Int := 19

def S_IFDIR : Nat := 0x4000

/-! ### split_path (sys_mknod.c, lines 29-54)

```c
static void split_path(const char *filepath, char *parent, char *name)
{
    int i;
    i = strlen(filepath);
    while (i > 0) {
        i--;
        if (filepath[i] == '/')
            break;
    }
    if (i > 0) {
        int k = (*filepath == '/') ? 1 : 0;
        strncpy(parent, filepath, i);
        strcpy(name, filepath + i + k);
    } else {
        parent[i++] = '/';
        if (filepath[i] != '\0') {
            strcpy(name, filepath + i);
        }
        else {
            name[0] = '.';
            name[1] = '\0';
        }
    }
    parent[i] = '\0';
}
```
-/

/-- The scan loop of `split_path`: starting from `i = strlen(filepath)`,
decrement `i` and stop as soon as `filepath[i] == '/'`; if no separator is
found the loop ends with `i = 0`. -/
def scanLoop (s : List Char) : Nat → Nat
  | 0 => 0
  | i + 1 => if s.getD i '\x00' = '/' then i else scanLoop s i

/-- `split_path filepath = (parent, name)`, a direct transcription of the C
function.  In the `i > 0` branch `strncpy(parent, filepath, i)` is
`List.take i` (the first `i` characters contain no NUL) and
`strcpy(name, filepath + i + k)` is `List.drop (i + k)`.  In the `i = 0`
branch, `parent` receives `"/"` and `name` is `filepath + 1` when
`filepath[1]` is not the NUL terminator, otherwise `"."`. -/
def split_path (filepath : List Char) : List Char × List Char :=
  let i := scanLoop filepath filepath.length
  if 0 < i then
    let k := if filepath.getD 0 '\x00' = '/' then 1 else 0
    (filepath.take i, filepath.drop (i + k))
  else
    (['/'], if filepath.getD 1 '\x00' ≠ '\x00' then filepath.drop 1 else ['.'])

/-! ### The device dispatch layer (devfs.c, `devfs_inode_read` / `devfs_inode_write`) -/

/-- The external driver entry points (`tty_read`, `tty_write`, `ramdisk_read`,
`ramdisk_write`) are out of scope and appear as abstract functions.  A read
entry point returns the `ssize_t` result together with the resulting
destination buffer; a write entry point returns only the `ssize_t` result. -/
structure DriverEnv where
  tty_read : Nat → List Nat → Nat → Int × List Nat
  tty_write : Nat → List Nat → Nat → Int
  ramdisk_read : List Nat → Nat → Nat → Int × List Nat
  ramdisk_write : List Nat → Nat → Nat → Int

/-- The terminal case labels of the `switch` in `devfs_inode_read` and
`devfs_inode_write` (`DEV_TTY`, `DEV_CONSOLE`, `DEV_CONSOLE1..4`). -/
def isTTYDev (dev : Nat) : Bool :=
  dev == DEV_TTY || dev == DEV_CONSOLE || dev == DEV_CONSOLE1 ||
    dev == DEV_CONSOLE2 || dev == DEV_CONSOLE3 || dev == DEV_CONSOLE4

/-- `devfs_inode_read` (devfs.c, lines 46-79), as a function of the device
identifier stored in the inode.  Result: the returned `ssize_t` and the
destination buffer after the call.  The `DEV_ZERO` case performs
`memset(buf, 0, count)` and falls through to `n = count`; the `DEV_NULL`
case returns `count` with the buffer untouched; an unknown identifier
returns `-ENODEV`. -/
def devfs_inode_read (env : DriverEnv) (dev : Nat) (buf : List Nat)
    (count offset : Nat) : Int × List Nat :=
  if isTTYDev dev then env.tty_read dev buf count
  else if dev == DEV_INITRD then env.ramdisk_read buf count offset
  else if dev == DEV_ZERO then ((count : Int), List.replicate count 0 ++ buf.drop count)
  else if dev == DEV_NULL then ((count : Int), buf)
  else (-ENODEV, buf)

/-- `devfs_inode_write` (devfs.c, lines 82-113).  `DEV_ZERO` and `DEV_NULL`
share a fallthrough that returns `count` without touching the source data. -/
def devfs_inode_write (env : DriverEnv) (dev : Nat) (buf : List Nat)
    (count offset : Nat) : Int :=
  if isTTYDev dev then env.tty_write dev buf count
  else if dev == DEV_INITRD then env.ramdisk_write buf count offset
  else if dev == DEV_ZERO || dev == DEV_NULL then (count : Int)
  else -ENODEV

/-! ### The device node registry (devfs.c) -/

/-- A `struct devfs_inode`: the fields of the embedded `struct inode` that
this slice reads or writes (`ino`, `dev`, `mode`).  The registry
`devfs_nodes` is a `List DevfsInode` in insertion order (head = oldest,
`list_insert_before(&devfs_nodes, ...)` appends at the tail). -/
structure DevfsInode where
  ino : Nat
  dev : Nat
  mode : Nat
  deriving DecidableEq

/-- The mutable state of the filesystem: the registry `devfs_nodes` and the
`static int ino` counter of `devfs_sb_inode_alloc`. -/
structure DevfsState where
  nodes : List DevfsInode
  ino : Nat
  deriving DecidableEq

/-- State at process start: empty registry, counter `0`. -/
def processInit : DevfsState := { nodes := [], ino := 0 }

/-- `devfs_sb_inode_alloc` (devfs.c, lines 181-194): on `kmalloc` success,
build a node via `inode_init(&inode->base, 0, ino++)` (device identifier `0`,
sequence number = current counter; `inode_init` itself is outside the slice
and is modelled from the spec as storing these two fields), append it to the
registry tail and bump the counter; on `kmalloc` failure return `NULL` with
the state unchanged. -/
def devfs_sb_inode_alloc (kmallocOk : Bool) (s : DevfsState) :
    Option DevfsInode × DevfsState :=
  if kmallocOk then
    let node : DevfsInode := { ino := s.ino, dev := 0, mode := 0 }
    (some node, { nodes := s.nodes ++ [node], ino := s.ino + 1 })
  else (none, s)

/-- `devfs_sb_inode_free` (devfs.c, lines 197-201): `list_delete` the node
from the registry (nodes are identified by their unique sequence number) and
release it.  The counter is not touched. -/
def devfs_sb_inode_free (i : Nat) (s : DevfsState) : DevfsState :=
  { s with nodes := s.nodes.filter (fun n => n.ino != i) }

/-- One registry lifecycle event: an allocation (with the success of the
underlying `kmalloc`) or a free of the node with the given sequence number. -/
inductive DevfsOp where
  | alloc (kmallocOk : Bool)
  | free (i : Nat)

/-- Run a sequence of lifecycle events from a state, collecting the sequence
numbers assigned by the successful allocations, in call order. -/
def devfs_run : DevfsState → List DevfsOp → DevfsState × List Nat
  | s, [] => (s, [])
  | s, DevfsOp.alloc ok :: ops =>
    let r := devfs_sb_inode_alloc ok s
    let rest := devfs_run r.2 ops
    (rest.1, (match r.1 with | some n => [n.ino] | none => []) ++ rest.2)
  | s, DevfsOp.free i :: ops => devfs_run (devfs_sb_inode_free i s) ops

/-! ### Identifier-keyed lookup (devfs.c, `dev_to_inode`, lines 206-219)

```c
static struct inode *dev_to_inode(dev_t dev)
{
    struct devfs_inode *inode;
    struct list_link *curr = devfs_nodes.next;
    while (curr != &devfs_nodes)
    {
        inode = list_container(curr, struct devfs_inode, link);
        if (inode->base.dev == dev)
            break;
        curr = curr->next;
    }
    return (struct inode *)inode;
}
```
`inode` is only assigned inside the loop, so when the scan falls off the end
the function returns the **last** node visited, not `NULL`; on an empty
registry it returns the uninitialized local (modelled as `none`, the only
case in which the caller's `NULL` test can fire). -/

def dev_to_inode : List DevfsInode → Nat → Option DevfsInode
  | [], _ => none
  | n :: rest, dev =>
    if n.dev = dev then some n
    else
      match rest with
      | [] => some n
      | m :: rest2 => dev_to_inode (m :: rest2) dev

/-- `devfs_read` (devfs.c, lines 221-230): `n = -1`, then dispatch through
`dev_to_inode` when it yields a non-`NULL` inode. -/
def devfs_read (env : DriverEnv) (nodes : List DevfsInode) (dev : Nat)
    (buf : List Nat) (size off : Nat) : Int × List Nat :=
  match dev_to_inode nodes dev with
  | none => (-1, buf)
  | some inode => devfs_inode_read env inode.dev buf size off

/-- `devfs_write` (devfs.c, lines 232-241). -/
def devfs_write (env : DriverEnv) (nodes : List DevfsInode) (dev : Nat)
    (buf : List Nat) (size off : Nat) : Int :=
  match dev_to_inode nodes dev with
  | none => -1
  | some inode => devfs_inode_write env inode.dev buf size off

/-! ### Name resolution (devfs.c, `name_to_dev` and `devfs_lookup`) -/

/-- The static `dev_name_map` table (devfs.c, lines 116-126). -/
def dev_name_map : List (List Char × Nat) :=
  [(['z', 'e', 'r', 'o'], DEV_ZERO),
   (['t', 't', 'y', '1'], DEV_CONSOLE1),
   (['t', 't', 'y', '2'], DEV_CONSOLE2),
   (['t', 't', 'y', '3'], DEV_CONSOLE3),
   (['t', 't', 'y', '4'], DEV_CONSOLE4),
   (['i', 'n', 'i', 't', 'r', 'd'], DEV_INITRD)]

/-- `name_to_dev` (devfs.c, lines 130-142): `dev` starts as the sentinel
`0xFFFF`; the loop takes the first exact match and breaks. -/
def name_to_dev (name : List Char) : Nat :=
  match dev_name_map.find? (fun p => p.1 == name) with
  | some p => p.2
  | none => 0xFFFF

/-- `devfs_lookup` (devfs.c, lines 145-166): `"."` and `".."` return the
directory itself; otherwise resolve the name and scan the registry for the
first node with that device identifier (`inode` is initialized to `NULL`
here, so a miss really returns `NULL`). -/
def devfs_lookup (dir : DevfsInode) (nodes : List DevfsInode)
    (name : List Char) : Option DevfsInode :=
  if name = ['.'] ∨ name = ['.', '.'] then some dir
  else nodes.find? (fun n => n.dev == name_to_dev name)

/-! ### Directory iteration (devfs.c, `devfs_dentry_readdir`, lines 244-272) -/

/-- A `struct dentry` child as seen by `readdir`: its name and the `ino` of
the inode it denotes. -/
structure DEntry where
  name : List Char
  ino : Nat
  deriving DecidableEq

/-- The observable outcome of one `devfs_dentry_readdir` call: the returned
status (`0` or `-1`), the name copied into `dent->d_name` (`none` when the
call writes no name), the value written to `dent->d_ino` (`none` when that
field is not written, as for `"."` and `".."`), and the value of the static
cursor `curr_link` after the call (the suffix of the child list that remains
to be visited). -/
structure RdOut where
  res : Int
  name : Option (List Char)
  dIno : Option Nat
  cursor : List DEntry
  deriving DecidableEq

/-- `devfs_dentry_readdir`: index 0 yields `"."`, index 1 yields `".."`,
index 2 resets the static cursor to the head of `children`; otherwise the
cursor is consumed: if it has not reached the list end, emit that child's
name and inode number and advance, else leave `name` as `NULL` and return
`-1`. -/
def devfs_dentry_readdir (children : List DEntry) (cursor : List DEntry)
    (i : Nat) : RdOut :=
  if i = 0 then ⟨0, some ['.'], none, cursor⟩
  else if i = 1 then ⟨0, some ['.', '.'], none, cursor⟩
  else
    match (if i = 2 then children else cursor) with
    | [] => ⟨-1, none, none, if i = 2 then children else cursor⟩
    | c :: rest => ⟨0, some c.name, some c.ino, rest⟩

/-- Perform a sequence of `devfs_dentry_readdir` calls at the given indices,
threading the static cursor, and record each call's observable result. -/
def readdirRun (children : List DEntry) :
    List DEntry → List Nat → List (Int × Option (List Char) × Option Nat)
  | _, [] => []
  | cursor, i :: is =>
    let o := devfs_dentry_readdir children cursor i
    (o.res, o.name, o.dIno) :: readdirRun children o.cursor is

/-! ### Mount-time initialization (devfs.c, `devfs_sb_create`, lines 293-308) -/

/-- `devfs_sb_create`: `list_init(&devfs_nodes)` empties the registry, the
root node is obtained from `devfs_sb_inode_alloc` (the same allocator used
for device nodes), then `root->base.mode = S_IFDIR` and
`root->base.dev = dev` mutate the node in place (reflected in the registry,
which holds the same object).  If the allocation returns `NULL` the C code
dereferences it; that crash is modelled as `none`. -/
def devfs_sb_create (kmallocOk : Bool) (dev : Nat) (s : DevfsState) :
    Option (DevfsInode × DevfsState) :=
  let s0 : DevfsState := { s with nodes := [] }
  match devfs_sb_inode_alloc kmallocOk s0 with
  | (none, _) => none
  | (some root, s1) =>
    let root2 : DevfsInode := { root with mode := S_IFDIR, dev := dev }
    some (root2,
      { s1 with nodes := s1.nodes.map (fun n => if n.ino = root.ino then root2 else n) })

/-! ### The node creation syscall (sys_mknod.c, `sys_mknod`, lines 59-89)

```c
int sys_mknod(const char *pathname, mode_t mode, dev_t dev)
{
    dentry = named(pathname);
    if (dentry != NULL)
        return -EEXIST;
    split_path(pathname, parent, name);
    dentry = named(parent);
    if (dentry == NULL)
        return -1;
    idir = dentry->inod;
    res = vfs_mknod(idir, mode, dev);
    if (res == 0)
    {
        struct dentry *dchild = named(pathname);
        if (dchild == NULL)
            res = -1;
        dget(dchild);   /* Keep one reference */
    }
    return res;
}
```
The external naming layer `named` and the generic `vfs_mknod` are abstract:
`resolve0` is `named` before the mknod, `resolve1` is `named` afterwards
(mknod mutates the tree), each returning an abstract dentry identity;
`vfsMknodRes` is the result of `vfs_mknod`. -/

structure SysEnv where
  resolve0 : List Char → Option Nat
  resolve1 : List Char → Option Nat
  vfsMknodRes : Int

/-- What one `sys_mknod` call did: the returned status, whether `vfs_mknod`
was invoked (the only way the registry can change), and the arguments of the
`dget` calls it performed, in order (`none` = the null pointer). -/
structure SysOut where
  res : Int
  mknodCalled : Bool
  dgetArgs : List (Option Nat)
  deriving DecidableEq

def sys_mknod (env : SysEnv) (pathname : List Char) : SysOut :=
  match env.resolve0 pathname with
  | some _ => ⟨-EEXIST, false, []⟩
  | none =>
    let pn := split_path pathname
    match env.resolve0 pn.1 with
    | none => ⟨-1, false, []⟩
    | some _ =>
      if env.vfsMknodRes = 0 then
        let dchild := env.resolve1 pathname
        ⟨if dchild = none then -1 else 0, true, [dchild]⟩
      else ⟨env.vfsMknodRes, true, []⟩

/-! ## Claim theorems -/

/-- Claim C1 (code bug): `split_path` does not implement the spec's two-case
algorithm.  In the no/leading-separator case it takes the remainder after the
**first character** whether or not that character is a separator, so the bare
filename `"zero2"` yields leaf `"ero2"` instead of `"zero2"`; and in the
final-separator case the skip (`k`) is applied only when the path starts with
a separator, so `"a/b"` yields leaf `"/b"`, which contains the separator. -/
theorem split_path_mangles_names :
    split_path ['z', 'e', 'r', 'o', '2'] = (['/'], ['e', 'r', 'o', '2']) ∧
      split_path ['a', '/', 'b'] = (['a'], ['/', 'b']) := by decide

/-- Registry node used in the C2 refutation: a single live node carrying
`DEV_ZERO`. -/
def c2node : DevfsInode := { ino := 0, dev := DEV_ZERO, mode := 0 }

/-- Claim C2 (code bug): `dev_to_inode` leaves `inode` holding the last node
visited when the scan finds no match, so for a device identifier (`0x0777`)
that no live node carries it returns the last registry node instead of
`NULL`; `devfs_read`/`devfs_write` then dispatch on that unrelated node and
succeed (here: zero-filling the buffer and returning the count) instead of
failing. -/
theorem dev_to_inode_miss_returns_last_node :
    ∀ (env : DriverEnv) (off : Nat),
      (c2node.dev == 0x0777) = false ∧
        dev_to_inode [c2node] 0x0777 = some c2node ∧
        devfs_read env [c2node] 0x0777 [9, 9] 2 off = (2, [0, 0]) ∧
        devfs_write env [c2node] 0x0777 [9, 9] 2 off = 2 :=
  fun _ _ => ⟨rfl, rfl, rfl, rfl⟩

/-- Naming-layer environment for the C3 refutation: before the mknod only
`"/"` resolves; after the reported success, re-resolution of the full path
still fails. -/
def c3Env : SysEnv :=
  { resolve0 := fun s => if s = ['/'] then some 1 else none
    resolve1 := fun _ => none
    vfsMknodRes := 0 }

/-- Claim C3 (code bug): after `vfs_mknod` reports success and re-resolution
of the full path fails, `sys_mknod` does set `res = -1`, but the `dget` call
is not guarded by an `else`: the reference operation is still applied to the
absent (null) entry, as the `dgetArgs = [none]` trace shows. -/
theorem sys_mknod_applies_dget_to_null_dentry :
    sys_mknod c3Env ['/', 'z', 'e', 'r', 'o', '2'] =
      { res := -1, mknodCalled := true, dgetArgs := [none] } := rfl

/-- Claim C4: a path that already resolves fails with `-EEXIST`, and a path
whose parent does not resolve fails with the code's `NoSuchParent` status
(`-1`); in both cases `vfs_mknod` is never invoked (so no node is allocated
and the registry is unchanged) and no reference is taken. -/
theorem sys_mknod_failure_paths_no_alloc :
    ∀ (env : SysEnv) (p : List Char),
      ((env.resolve0 p).isSome →
          sys_mknod env p = { res := -EEXIST, mknodCalled := false, dgetArgs := [] }) ∧
        (env.resolve0 p = none → env.resolve0 (split_path p).1 = none →
          sys_mknod env p = { res := -1, mknodCalled := false, dgetArgs := [] }) := by
  intro env p
  constructor
  · intro h
    rcases ho : env.resolve0 p with _ | d
    · rw [ho] at h; simp at h
    · simp [sys_mknod, ho]
  · intro h0 h1
    simp [sys_mknod, h0, h1]

/-- Environment where every path resolves (C4 witness, `AlreadyExists`
branch). -/
def c4EnvA : SysEnv :=
  { resolve0 := fun _ => some 1, resolve1 := fun _ => none, vfsMknodRes := 0 }

/-- Environment where no path resolves (C4 witness, `NoSuchParent` branch). -/
def c4EnvB : SysEnv :=
  { resolve0 := fun _ => none, resolve1 := fun _ => none, vfsMknodRes := 0 }

/-- Witness for C4 at `"a"` (already exists) and `"np/x"` (parent `"np"`
missing). -/
theorem sys_mknod_failure_paths_no_alloc_wit :
    sys_mknod c4EnvA ['a'] = { res := -EEXIST, mknodCalled := false, dgetArgs := [] } ∧
      sys_mknod c4EnvB ['n', 'p', '/', 'x'] =
        { res := -1, mknodCalled := false, dgetArgs := [] } :=
  ⟨(sys_mknod_failure_paths_no_alloc c4EnvA ['a']).1 rfl,
   (sys_mknod_failure_paths_no_alloc c4EnvB ['n', 'p', '/', 'x']).2 rfl rfl⟩

/-- Claim C5: for every count `n`, reading `n` bytes from the zero device
fills the first `n` bytes of the destination with zeros (bytes past `n` are
untouched) and returns `n`; writing `n` bytes to the zero device returns `n`
with the data discarded. -/
theorem zero_device_read_write :
    ∀ (env : DriverEnv) (buf : List Nat) (count offset : Nat),
      devfs_inode_read env DEV_ZERO buf count offset =
          ((count : Int), List.replicate count 0 ++ buf.drop count) ∧
        (List.replicate count 0 ++ buf.drop count).take count =
          List.replicate count 0 ∧
        devfs_inode_write env DEV_ZERO buf count offset = (count : Int) := by
  intro env buf count offset
  refine ⟨rfl, ?_, rfl⟩
  have h := List.take_left (List.replicate count (0 : Nat)) (buf.drop count)
  rwa [List.length_replicate] at h

/-- Claim C8: for every count `n`, reading `n` bytes from the null device
returns `n` with the destination buffer completely unchanged, and writing
`n` bytes returns `n` (the source data is never consulted: the result does
not depend on `buf`). -/
theorem null_device_read_write :
    ∀ (env : DriverEnv) (buf : List Nat) (count offset : Nat),
      devfs_inode_read env DEV_NULL buf count offset = ((count : Int), buf) ∧
        devfs_inode_write env DEV_NULL buf count offset = (count : Int) :=
  fun _ _ _ _ => ⟨rfl, rfl⟩

/-- Helper for C6: along any lifecycle trace, the sequence numbers assigned
by successful allocations are pairwise strictly increasing, and all of them
are at least the starting counter value. -/
theorem devfs_run_pairwise_lb :
    ∀ (ops : List DevfsOp) (s : DevfsState),
      List.Pairwise (· < ·) (devfs_run s ops).2 ∧
        ∀ x ∈ (devfs_run s ops).2, s.ino ≤ x := by
  intro ops
  induction ops with
  | nil => intro s; simp [devfs_run]
  | cons op ops ih =>
    intro s
    cases op with
    | free i => simpa [devfs_run, devfs_sb_inode_free] using ih (devfs_sb_inode_free i s)
    | alloc ok =>
      cases ok with
      | false => simpa [devfs_run, devfs_sb_inode_alloc] using ih s
      | true =>
        have h := ih { nodes := s.nodes ++ [{ ino := s.ino, dev := 0, mode := 0 }],
                       ino := s.ino + 1 }
        have hrun : (devfs_run s (DevfsOp.alloc true :: ops)).2 =
            s.ino :: (devfs_run
              { nodes := s.nodes ++ [{ ino := s.ino, dev := 0, mode := 0 }],
                ino := s.ino + 1 } ops).2 := by
          simp [devfs_run, devfs_sb_inode_alloc]
        rw [hrun]
        constructor
        · exact List.pairwise_cons.2
            ⟨fun x hx => lt_of_lt_of_le (Nat.lt_succ_self _) (h.2 x hx), h.1⟩
        · intro x hx
          rcases List.mem_cons.1 hx with rfl | hx
          · exact le_rfl
          · exact le_trans (Nat.le_succ _) (h.2 x hx)

/-- Claim C6: across the process lifetime, every sequence number assigned by
the allocator is strictly greater than every previously assigned one —
`List.Pairwise (· < ·)` over the numbers collected along any interleaving of
allocations (including failed `kmalloc`s) and frees; moreover a free never
touches the counter. -/
theorem alloc_sequence_numbers_strictly_increase :
    (∀ ops : List DevfsOp, List.Pairwise (· < ·) (devfs_run processInit ops).2) ∧
      ∀ (s : DevfsState) (i : Nat), (devfs_sb_inode_free i s).ino = s.ino :=
  ⟨fun ops => (devfs_run_pairwise_lb ops processInit).1, fun _ _ => rfl⟩

/-- One step of `readdirRun`: perform the head call and thread its cursor. -/
theorem readdirRun_cons (children cursor : List DEntry) (i : Nat) (is : List Nat) :
    readdirRun children cursor (i :: is) =
      ((devfs_dentry_readdir children cursor i).res,
        (devfs_dentry_readdir children cursor i).name,
        (devfs_dentry_readdir children cursor i).dIno) ::
        readdirRun children (devfs_dentry_readdir children cursor i).cursor is := rfl

/-- Helper for C7: once the cursor holds the suffix `cursor` of the child
list and all remaining requested indices are `≥ 3` (so neither the special
entries nor the reset at index `2` can fire), a sequential walk emits exactly
the cursor's entries followed by one `-1` end marker. -/
theorem readdirRun_consume :
    ∀ (children cursor : List DEntry) (k : Nat),
      readdirRun children cursor (List.range' (k + 3) (cursor.length + 1)) =
        cursor.map (fun c => ((0 : Int), some c.name, some c.ino)) ++
          [(-1, none, none)] := by
  intro children cursor
  induction cursor with
  | nil =>
    intro k
    have h0 : ¬(k + 3 = 0) := by omega
    have h1 : ¬(k + 3 = 1) := by omega
    have h2 : ¬(k + 3 = 2) := by omega
    simp [readdirRun, List.range', devfs_dentry_readdir, h0, h1, h2]
  | cons c rest ih =>
    intro k
    have h0 : ¬(k + 3 = 0) := by omega
    have h1 : ¬(k + 3 = 1) := by omega
    have h2 : ¬(k + 3 = 2) := by omega
    have ih1 := ih (k + 1)
    have hk : k + 1 + 3 = k + 4 := by omega
    rw [hk] at ih1
    have hr : List.range' (k + 3) ((c :: rest).length + 1) =
        (k + 3) :: List.range' (k + 4) (rest.length + 1) := rfl
    have hcall : devfs_dentry_readdir children (c :: rest) (k + 3) =
        ⟨0, some c.name, some c.ino, rest⟩ := by
      simp [devfs_dentry_readdir, h0, h1, h2]
    rw [hr, readdirRun_cons, hcall]
    simpa using ih1

/-- Claim C7: `devfs_dentry_readdir` yields `"."` at index 0 and `".."` at
index 1 (both with status 0), and a sequential walk over indices
`2, 3, …, 2 + |children|` — starting from an arbitrary leftover cursor, since
index 2 resets it — emits exactly the registered children, each once, in
insertion order, and then the end-of-directory status `-1`. -/
theorem readdir_enumerates_children :
    ∀ (children cursor : List DEntry),
      (devfs_dentry_readdir children cursor 0).res = 0 ∧
        (devfs_dentry_readdir children cursor 0).name = some ['.'] ∧
        (devfs_dentry_readdir children cursor 1).res = 0 ∧
        (devfs_dentry_readdir children cursor 1).name = some ['.', '.'] ∧
        readdirRun children cursor (List.range' 2 (children.length + 1)) =
          children.map (fun c => ((0 : Int), some c.name, some c.ino)) ++
            [(-1, none, none)] := by
  intro children cursor
  refine ⟨rfl, rfl, rfl, rfl, ?_⟩
  cases children with
  | nil => rfl
  | cons c rest =>
    have h := readdirRun_consume (c :: rest) rest 0
    have hr : List.range' 2 ((c :: rest).length + 1) =
        2 :: List.range' 3 (rest.length + 1) := rfl
    have hcall : devfs_dentry_readdir (c :: rest) cursor 2 =
        ⟨0, some c.name, some c.ino, rest⟩ := rfl
    rw [hr, readdirRun_cons, hcall]
    simpa using h

/-- Directory inode used in the C9 statements. -/
def c9dir : DevfsInode := { ino := 0, dev := 3, mode := S_IFDIR }

/-- Claim C9 counterexample: the name `"."` is absent from the static
`dev_name_map`, and no live node carries the sentinel `0xFFFF` (the registry
is empty), yet `devfs_lookup` does not return NotFound — the `"."`/`".."`
special case returns the directory itself before the registry is ever
scanned. -/
theorem lookup_dot_not_scanned_cex :
    List.find? (fun p => p.1 == ['.']) dev_name_map = none ∧
      name_to_dev ['.'] = 0xFFFF ∧
      devfs_lookup c9dir [] ['.'] = some c9dir := by decide

/-- Claim C9 (amended: excluding the special-cased names `"."` and `".."`):
for every other name absent from the static table, `name_to_dev` returns the
in-band sentinel `0xFFFF`, `devfs_lookup` reduces to a first-match registry
scan for a node carrying `0xFFFF`, and it returns NotFound exactly when no
live node carries `0xFFFF` — so a node allocated with device identifier
`0xFFFF` would be returned for every unknown name. -/
theorem lookup_unknown_name_scans_sentinel :
    ∀ (dir : DevfsInode) (nodes : List DevfsInode) (name : List Char),
      List.find? (fun p => p.1 == name) dev_name_map = none →
      name ≠ ['.'] → name ≠ ['.', '.'] →
      name_to_dev name = 0xFFFF ∧
        devfs_lookup dir nodes name = nodes.find? (fun n => n.dev == 0xFFFF) ∧
        (devfs_lookup dir nodes name = none ↔
          nodes.find? (fun n => n.dev == 0xFFFF) = none) := by
  intro dir nodes name h hd hdd
  have hn : name_to_dev name = 0xFFFF := by simp [name_to_dev, h]
  have hl : devfs_lookup dir nodes name = nodes.find? (fun n => n.dev == 0xFFFF) := by
    simp [devfs_lookup, hd, hdd, hn]
  exact ⟨hn, hl, by rw [hl]⟩

/-- Witness for the amended C9 at the unknown name `"f"`, an empty registry
and a concrete directory. -/
theorem lookup_unknown_name_scans_sentinel_wit :
    name_to_dev ['f'] = 0xFFFF ∧
      devfs_lookup c9dir [] ['f'] =
        List.find? (fun n => n.dev == 0xFFFF) ([] : List DevfsInode) ∧
      (devfs_lookup c9dir [] ['f'] = none ↔
        List.find? (fun n => n.dev == 0xFFFF) ([] : List DevfsInode) = none) :=
  lookup_unknown_name_scans_sentinel c9dir [] ['f'] (by decide) (by decide) (by decide)

/-- Claim C10: mount-time initialization allocates the root through the same
allocator as device nodes (`devfs_sb_create` calls `devfs_sb_inode_alloc` on
the freshly emptied registry), so starting from the process-initial state the
root node carries sequence number 0, the directory mode, and the
filesystem's own device identifier, it is the sole (hence first) registry
element with the counter advanced to 1, and `dev_to_inode` on that
identifier returns the root whatever nodes are registered later. -/
theorem sb_create_root_first_seq0 :
    ∀ (dev : Nat) (rest : List DevfsInode),
      ∃ (root : DevfsInode) (s1 : DevfsState),
        devfs_sb_create true dev processInit = some (root, s1) ∧
        root.ino = 0 ∧ root.dev = dev ∧ root.mode = S_IFDIR ∧
        s1.nodes = [root] ∧ s1.ino = 1 ∧
        dev_to_inode (s1.nodes ++ rest) dev = some root := by
  intro dev rest
  refine ⟨{ ino := 0, dev := dev, mode := S_IFDIR },
    { nodes := [{ ino := 0, dev := dev, mode := S_IFDIR }], ino := 1 },
    rfl, rfl, rfl, rfl, rfl, rfl, ?_⟩
  cases rest with
  | nil => simp [dev_to_inode]
  | cons m r => simp [dev_to_inode]
